import Mathlib

/-!
Verification development for the mapchete task-graph processing engine.

The definitions below are a shallow embedding of the engine code:
`mapchete/commands/_execute.py` (job lifecycle, retry and cancellation),
`mapchete/processing/tasks.py` (tasks, tile tasks, batches, the dask
collection builder) and `mapchete/enums.py` (status and mode enums).
External collaborators (tile-pyramid mathematics, geometry library,
raster I/O, the spatial index) are modelled from the specification and
marked as such in their doc comments.
-/

namespace Mapchete

/-- Job status enum, from mapchete/enums.py (class Status). -/
inductive Status
  | parsing
  | initializing
  | running
  | retrying
  | post_processing
  | done
  | cancelled
  | failed
deriving DecidableEq, Repr

/-- Progress record with a current and a total counter; the current value
defaults to zero, matching an observer notification that only carries a
total (mapchete.types.Progress, modelled from the spec section 3). -/
structure Progress where
  current : Nat := 0
  total : Nat
deriving DecidableEq, Repr

/-- One observer notification: any subset of status, progress, message and
task_result (commands/observer is external; the event shape is from the
spec section 4.6 and the notify call sites in commands/_execute.py). -/
structure Event where
  status : Option Status := none
  progress : Option Progress := none
  hasMessage : Bool := false
  hasTaskResult : Bool := false
deriving DecidableEq, Repr

/-- Notification carrying only a status. -/
def statusEvent (s : Status) : Event := { status := some s }

/-- Notification carrying only a message. -/
def msgEvent : Event := { hasMessage := true }

/-- The two exception classes that parameterize the job state machine:
cancel_on_exception (default JobCancelledError) and the retry-eligible
class retry_on_exception (default Exception). -/
inductive ExcKind
  | cancel
  | retryable
deriving DecidableEq, Repr

/-- How one call of the execute command ends: a normal return or an
exception propagating out of the job boundary. -/
inductive JobEnd
  | returned
  | raised (e : ExcKind)
deriving DecidableEq, Repr

/-- Behaviour of one attempt of the processing loop: either all futures are
consumed (success, with the number of task results observed), or the loop
raises an exception of the given kind after some number of results. -/
inductive AttemptOutcome
  | success (results : Nat)
  | raises (e : ExcKind) (resultsBefore : Nat)
deriving DecidableEq, Repr

/-- Events emitted at the head of one attempt of the while loop in
commands/_execute.py lines 139-158: the attempt message (only from the
second attempt on), the initializing status, and the task-count message. -/
def attemptLead (a : Nat) : List Event :=
  (if 1 < a then [msgEvent] else []) ++ [statusEvent Status.initializing, msgEvent]

/-- Events emitted when the executor is acquired and the run starts
(commands/_execute.py lines 174-188): the waiting message and the running
status carrying an initial progress with the fixed total. -/
def runningHeader (total : Nat) : List Event :=
  [msgEvent,
   { status := some Status.running, progress := some { total := total }, hasMessage := true }]

/-- Events emitted while consuming task results (commands/_execute.py lines
190-223): per result a task-detail message followed by a progress plus
task_result notification, with current counting up from one. -/
def resultEvents (total : Nat) : Nat → List Event
  | 0 => []
  | j + 1 =>
      resultEvents total j ++
        [msgEvent, { progress := some { current := j + 1, total := total }, hasTaskResult := true }]

/-- All events of one attempt up to the point where the future loop stops
(after j results), for a job with a nonzero task total. -/
def attemptBody (total a j : Nat) : List Event :=
  attemptLead a ++ runningHeader total ++ resultEvents total j

/-- Shallow embedding of the retry while-loop of commands/_execute.py lines
139-238, parameterized by the per-attempt behaviour. The first argument of
the final function is the remaining retry budget, the second the attempt
number. With zero total tasks the loop notifies done and returns
(lines 160-162). A cancel exception notifies cancelled and re-raises
(lines 226-228). A retry-eligible exception notifies failed, and if the
retry budget is nonzero decrements it, notifies retrying and loops,
otherwise re-raises (lines 230-238). -/
def runFrom (total : Nat) (outcomes : Nat → AttemptOutcome) : Nat → Nat → List Event × JobEnd
  | r, a =>
    if total = 0 then (attemptLead a ++ [statusEvent Status.done], JobEnd.returned)
    else
      match outcomes a with
      | AttemptOutcome.success j => (attemptBody total a j, JobEnd.returned)
      | AttemptOutcome.raises ExcKind.cancel j =>
          (attemptBody total a j ++ [statusEvent Status.cancelled], JobEnd.raised ExcKind.cancel)
      | AttemptOutcome.raises ExcKind.retryable j =>
          match r with
          | 0 => (attemptBody total a j ++ [statusEvent Status.failed], JobEnd.raised ExcKind.retryable)
          | Nat.succ rp =>
              ((attemptBody total a j ++ [statusEvent Status.failed, statusEvent Status.retrying])
                 ++ (runFrom total outcomes rp (a + 1)).1,
               (runFrom total outcomes rp (a + 1)).2)

/-- A whole job run (commands/_execute.py execute): the parsing status is
notified once up front (line 110), then the retry loop runs starting at
attempt 1 with the configured retry budget. -/
def runJob (total retries : Nat) (outcomes : Nat → AttemptOutcome) : List Event × JobEnd :=
  (statusEvent Status.parsing :: (runFrom total outcomes retries 1).1,
   (runFrom total outcomes retries 1).2)

/-- The sequence of statuses carried by a list of events. -/
def statusesOf (evs : List Event) : List Status :=
  evs.filterMap Event.status

/-- Number of events carrying the given status. -/
def statusCount (s : Status) (evs : List Event) : Nat :=
  evs.countP (fun e => decide (e.status = some s))

/-- Attempt behaviour used to refute the claim that a retried job ends in
the done status: the first attempt raises a retry-eligible error, the
second succeeds with its single task result. -/
def retryThenSucceed : Nat → AttemptOutcome :=
  fun a => if a = 1 then AttemptOutcome.raises ExcKind.retryable 0 else AttemptOutcome.success 1

/-- Attempt behaviour for the retry witness: attempt one fails with a
retry-eligible error, every later attempt succeeds with one result. -/
def retryWitnessOutcomes : Nat → AttemptOutcome :=
  fun a => if a ≤ 1 then AttemptOutcome.raises ExcKind.retryable 0 else AttemptOutcome.success 1

/-- Attempt behaviour for the cancel witness: every attempt raises the
cancel exception before producing any result. -/
def cancelWitnessOutcomes : Nat → AttemptOutcome :=
  fun _ => AttemptOutcome.raises ExcKind.cancel 0

/-- Python exception kinds raised by the embedded code paths. -/
inductive PyExc
  | valueError
  | typeError
  | keyError
  | nodataTile
  | processOutputError
  | userException
deriving DecidableEq, Repr

/-- A tile address (zoom, row, column) in a tile pyramid. -/
structure TileAddr where
  zoom : Nat
  row : Nat
  col : Nat
deriving DecidableEq, Repr

/-- Modelled from the spec glossary (tile-pyramid mathematics is an external
collaborator): zoom z + 1 subdivides each tile into four children, listed
in the deterministic child order top-left, top-right, bottom-left,
bottom-right. -/
def TileAddr.getChildren (t : TileAddr) : List TileAddr :=
  [{ zoom := t.zoom + 1, row := 2 * t.row, col := 2 * t.col },
   { zoom := t.zoom + 1, row := 2 * t.row, col := 2 * t.col + 1 },
   { zoom := t.zoom + 1, row := 2 * t.row + 1, col := 2 * t.col },
   { zoom := t.zoom + 1, row := 2 * t.row + 1, col := 2 * t.col + 1 }]

/-- Modelled from the spec glossary: the parent tile one zoom level up. -/
def TileAddr.getParent (t : TileAddr) : TileAddr :=
  { zoom := t.zoom - 1, row := t.row / 2, col := t.col / 2 }

/-- Resampling methods (external raster library; only their identity
matters to the engine). -/
inductive Resampling
  | nearest
  | bilinear
  | cubic
  | average
deriving DecidableEq, Repr

/-- The two interpolation directions, from class InterpolateFrom in
processing/tasks.py. -/
inductive InterpolateFrom
  | lower
  | higher
deriving DecidableEq, Repr

/-- The baselevels configuration: the baselevel zoom set and the two
resampling methods (the tile_pyramid entry of the python dict is part of
the external pyramid mathematics and is not represented). -/
structure Baselevels where
  zooms : List Nat
  lower : Resampling
  higher : Resampling
deriving DecidableEq, Repr

/-- Where one child raster of a mosaic came from: a dependency result or a
read through the output reader. -/
inductive ChildSource
  | fromDependency (t : TileAddr)
  | fromReader (t : TileAddr)
deriving DecidableEq, Repr

/-- Process output values: the two baselevel interpolation results are
represented symbolically by the tiles and resampling they combine, a user
process returns an opaque payload, and the distinguished python values
used by the control flow (the string "empty" and None) are explicit. -/
inductive ProcessData
  | fromParent (parent : TileAddr) (resampling : Resampling) (nodata : Int)
  | fromChildren (sources : List ChildSource) (resampling : Resampling) (nodata : Int)
  | userValue (v : Nat)
  | emptyString
  | pyNone
deriving DecidableEq, Repr

/-- An input binding of a tile task, holding preprocessing task results
keyed by task key (the input object itself is external; this captures the
state touched by set_preprocessing_task_result). -/
structure InputObj where
  input_key : String
  preprocessing_results : List (String × ProcessData)
deriving DecidableEq, Repr

/-- The context handed to the user process (MapcheteProcess with tile,
params, input and output_params; only the engine-relevant parts appear). -/
structure MapcheteProcessCtx where
  tile : TileAddr
  input : List InputObj
deriving DecidableEq, Repr

/-- Behaviour of one user-process invocation: return a value, raise the
no-data sentinel MapcheteNodataTile, or raise any other exception. -/
inductive UserOutcome
  | returns (v : ProcessData)
  | raisesNodata
  | raisesException
deriving DecidableEq, Repr

/-- Processing modes, from mapchete/enums.py (class ProcessingMode); the
python class is a str enum whose values compare equal to the strings
memory, continue, overwrite and readonly. -/
inductive ProcessingMode
  | CONTINUE
  | READONLY
  | OVERWRITE
  | MEMORY
deriving DecidableEq, Repr

/-- Result record of one task execution, from
mapchete.processing.types.TaskInfo as used by tasks.py: TileTask.execute
builds it without an id, with processed set to true and the process tile
attached. -/
structure TaskInfo where
  id : Option String := none
  output : ProcessData
  processed : Bool := false
  tile : Option TileAddr := none
deriving DecidableEq, Repr

/-- A tile task as built by TileTask.__init__ in processing/tasks.py.
skip leaves the configuration attributes unset (None). -/
structure TileTask where
  tile : TileAddr
  id : String
  skip : Bool
  config_zoom_levels : Option (List Nat)
  config_baselevels : Option Baselevels
  process : Option (MapcheteProcessCtx → UserOutcome)
  mode : Option ProcessingMode
  input : List InputObj
  output_params : List (String × Int)
  has_output_reader : Bool
  output_nodata : Int

/-- Python min() over an int list: raises ValueError on an empty sequence. -/
def pyMin : List Nat → Except PyExc Nat
  | [] => Except.error PyExc.valueError
  | x :: xs => Except.ok (xs.foldl Nat.min x)

/-- Python max() over an int list: raises ValueError on an empty sequence. -/
def pyMax : List Nat → Except PyExc Nat
  | [] => Except.error PyExc.valueError
  | x :: xs => Except.ok (xs.foldl Nat.max x)

/-- Store a value under a key in an association list with dict semantics:
an existing entry is overwritten in place, a new key is appended. -/
def storeResult (l : List (String × ProcessData)) (task_key : String)
    (result : ProcessData) : List (String × ProcessData) :=
  if l.any (fun p => decide (p.1 = task_key)) then
    l.map (fun p => if p.1 = task_key then (task_key, result) else p)
  else l ++ [(task_key, result)]

/-- Modelled from the spec section 4.3: an input binding stores a
preprocessing result under its task key (the input object is external;
storing overwrites an entry with the same key). -/
def setPreprocessingResult (inp : InputObj) (task_key : String) (result : ProcessData) :
    InputObj :=
  { inp with preprocessing_results := storeResult inp.preprocessing_results task_key result }

/-- Split at the first colon, as python split(":")[0] paired with the colon
join of the remaining parts. -/
def splitFirstColon (s : String) : String × String :=
  match s.splitOn ":" with
  | [] => (s, "")
  | x :: rest => (x, String.intercalate ":" rest)

/-- One step of the dependency-attachment loop in TileTask._execute
(tasks.py lines 307-319): dependency keys starting with tile_task are
skipped, the remaining key is split at the first colon into input key and
task key, an empty task key raises KeyError, and every input binding with
a matching input key stores the dependency output. -/
def attachOne (inputs : List InputObj) (task_key : String) (result : ProcessData) :
    Except PyExc (List InputObj) :=
  if task_key.startsWith "tile_task" then Except.ok inputs
  else
    let p := splitFirstColon task_key
    if p.2 = "" then Except.error PyExc.keyError
    else
      Except.ok (inputs.map (fun inp =>
        if inp.input_key = p.1 then setPreprocessingResult inp p.2 result else inp))

/-- The dependency-attachment loop over all dependency entries in
insertion order. -/
def attachDependencies (inputs : List InputObj) :
    List (String × TaskInfo) → Except PyExc (List InputObj)
  | [] => Except.ok inputs
  | d :: rest =>
      match attachOne inputs d.1 d.2.output with
      | Except.error e => Except.error e
      | Except.ok inputs2 => attachDependencies inputs2 rest

/-- Result of the inner execution: the python return value or exception,
plus whether the user process callable was invoked. -/
structure ExecResult where
  result : Except PyExc ProcessData
  processCalled : Bool

/-- Invoking the user process (tasks.py lines 320-335): calling a None
process raises TypeError; the no-data sentinel is re-raised as is; any
other exception is logged and re-raised. -/
def callUserProcess (t : TileTask) (inputs : List InputObj) : ExecResult :=
  match t.process with
  | none => { result := Except.error PyExc.typeError, processCalled := false }
  | some p =>
      match p { tile := t.tile, input := inputs } with
      | UserOutcome.returns v => { result := Except.ok v, processCalled := true }
      | UserOutcome.raisesNodata =>
          { result := Except.error PyExc.nodataTile, processCalled := true }
      | UserOutcome.raisesException =>
          { result := Except.error PyExc.userException, processCalled := true }

/-- The process branch of TileTask._execute: attach dependency results to
the input bindings (skipped for an empty dependency dict, matching the
python truthiness test), then run the user process. -/
def runProcessPart (t : TileTask) (deps : List (String × TaskInfo)) : ExecResult :=
  if deps.isEmpty then callUserProcess t t.input
  else
    match attachDependencies t.input deps with
    | Except.error e => { result := Except.error e, processCalled := false }
    | Except.ok inputs2 => callUserProcess t inputs2

/-- The src_tiles collection loop of the lower-interpolation branch
(tasks.py lines 370-381) under the same-pyramid assumption: dependency
outputs are keyed by their tile unless the output is None; a dependency
without a tile makes the python code dereference None and fail. The
accumulator keeps dict insertion order, first insertion wins the slot. -/
def collectDepTilesGo (acc : List TileAddr) :
    List TaskInfo → Except PyExc (List TileAddr)
  | [] => Except.ok acc
  | ti :: rest =>
      match ti.tile with
      | none => Except.error PyExc.typeError
      | some t =>
          collectDepTilesGo
            (if ti.output = ProcessData.pyNone then acc
             else if acc.any (fun x => decide (x = t)) then acc else acc ++ [t]) rest

/-- Tiles contributed by the dependency results, in insertion order. -/
def collectDepTiles (deps : List TaskInfo) : Except PyExc (List TileAddr) :=
  collectDepTilesGo [] deps

/-- The mosaic sources of the lower-interpolation branch: dependency tiles
first, then every child tile of the task tile not already covered by a
dependency, read through the output reader (tasks.py lines 391-399). -/
def childSources (tile : TileAddr) (depTiles : List TileAddr) : List ChildSource :=
  depTiles.map ChildSource.fromDependency ++
    ((tile.getChildren.filter
        (fun c => !(depTiles.any (fun x => decide (x = c))))).map ChildSource.fromReader)

/-- Model of TileTask._interpolate_from_baselevel (tasks.py lines 339-411)
under the assumption that process pyramid and output pyramid coincide and
carry no pixelbuffer, so pyramid.intersecting(tile) is the tile itself and
children are enumerated from direct child relations (the covered code
path); the external raster operations resample_from_array and
create_mosaic are represented symbolically by ProcessData. The higher
branch resamples the parent tile with the baselevels higher method, the
lower branch builds the child mosaic and resamples it with the baselevels
lower method, both with the output nodata value. -/
def interpolate_from_baselevel (t : TileTask) (bl : Baselevels)
    (baselevel : InterpolateFrom) (deps : List TaskInfo) : Except PyExc ProcessData :=
  match baselevel with
  | InterpolateFrom.higher =>
      Except.ok (ProcessData.fromParent t.tile.getParent bl.higher t.output_nodata)
  | InterpolateFrom.lower =>
      match collectDepTiles deps with
      | Except.error e => Except.error e
      | Except.ok depTiles =>
          Except.ok (ProcessData.fromChildren (childSources t.tile depTiles)
            bl.lower t.output_nodata)

/-- The branch structure of TileTask._execute (tasks.py lines 295-303):
with a truthy baselevels config, a tile zoom strictly below the minimum
baselevel zoom interpolates with the lower direction and a tile zoom
strictly above the maximum baselevel zoom interpolates with the higher
direction; otherwise the user process runs. -/
def tileTaskExecInner (t : TileTask) (deps : List (String × TaskInfo)) : ExecResult :=
  match t.config_baselevels with
  | some bl =>
      match pyMin bl.zooms with
      | Except.error e => { result := Except.error e, processCalled := false }
      | Except.ok mn =>
          if t.tile.zoom < mn then
            { result := interpolate_from_baselevel t bl InterpolateFrom.lower
                (deps.map Prod.snd),
              processCalled := false }
          else
            match pyMax bl.zooms with
            | Except.error e => { result := Except.error e, processCalled := false }
            | Except.ok mx =>
                if mx < t.tile.zoom then
                  { result := interpolate_from_baselevel t bl InterpolateFrom.higher
                      (deps.map Prod.snd),
                    processCalled := false }
                else runProcessPart t deps
  | none => runProcessPart t deps

/-- The python membership test of TileTask.execute, mode not in the list of
the strings memory, continue and overwrite, on the str enum value. -/
def modeAllowed : Option ProcessingMode → Bool
  | some ProcessingMode.MEMORY => true
  | some ProcessingMode.CONTINUE => true
  | some ProcessingMode.OVERWRITE => true
  | _ => false

/-- Outcome of TileTask.execute plus whether the user process ran. -/
structure ExecuteResult where
  outcome : Except PyExc TaskInfo
  processCalled : Bool

/-- Model of TileTask.execute (tasks.py lines 245-275): first the mode
check (ValueError unless memory, continue or overwrite), then the zoom
membership check (no-data outside the configured zoom levels; with the
attribute unset the python membership test on None raises TypeError), then
the inner execution; an output equal to the string "empty" raises the
no-data sentinel, a None output raises MapcheteProcessOutputError, and any
other output is wrapped in a TaskInfo with processed true and the tile. -/
def tileTaskExecute (t : TileTask) (deps : List (String × TaskInfo)) : ExecuteResult :=
  if modeAllowed t.mode = false then
    { outcome := Except.error PyExc.valueError, processCalled := false }
  else
    match t.config_zoom_levels with
    | none => { outcome := Except.error PyExc.typeError, processCalled := false }
    | some zs =>
        if !(zs.any (fun z => decide (z = t.tile.zoom))) then
          { outcome := Except.error PyExc.nodataTile, processCalled := false }
        else
          let r := tileTaskExecInner t deps
          match r.result with
          | Except.error e => { outcome := Except.error e, processCalled := r.processCalled }
          | Except.ok v =>
              if v = ProcessData.emptyString then
                { outcome := Except.error PyExc.nodataTile, processCalled := r.processCalled }
              else if v = ProcessData.pyNone then
                { outcome := Except.error PyExc.processOutputError,
                  processCalled := r.processCalled }
              else
                { outcome := Except.ok
                    { output := v, processed := true, tile := some t.tile },
                  processCalled := r.processCalled }

/-- What the batch wrapper hands to the engine: the distinguished string
"empty" or a task result. -/
inductive WrapperOutput
  | emptyMarker
  | taskInfo (ti : TaskInfo)
deriving DecidableEq, Repr

/-- Model of _execute_tile_task_wrapper (tasks.py lines 185-189): execute
the task, turning the no-data sentinel into the return value "empty" and
passing every other exception through. -/
def executeTileTaskWrapper (t : TileTask) (deps : List (String × TaskInfo)) :
    Except PyExc WrapperOutput × Bool :=
  let r := tileTaskExecute t deps
  match r.outcome with
  | Except.error PyExc.nodataTile => (Except.ok WrapperOutput.emptyMarker, r.processCalled)
  | Except.error e => (Except.error e, r.processCalled)
  | Except.ok ti => (Except.ok (WrapperOutput.taskInfo ti), r.processCalled)

/-- The slice of the validated MapcheteConfig consumed by
TileTask.__init__ (config parsing itself is external, spec section 6). -/
structure MapcheteConfigM where
  zoom_levels : List Nat
  baselevels : Option Baselevels
  process : MapcheteProcessCtx → UserOutcome
  mode : ProcessingMode
  inputs_for_tile : TileAddr → List InputObj
  output_params : List (String × Int)
  output_nodata : Int

/-- Modelled from the spec section 3: tile tasks use a deterministic id
derived from zoom, row and column; the dependency-attachment code relies
on these ids starting with tile_task. -/
def default_tile_task_id (t : TileAddr) : String :=
  "tile_task_z" ++ toString t.zoom ++ "-" ++ toString t.row ++ "-" ++ toString t.col

/-- The python expression tile.zoom in self.config_baselevels tests
membership of an integer among the keys of the baselevels dict; those keys
are the strings zooms, lower, higher and tile_pyramid (or no keys at all
when baselevels is the empty dict), so the test is always false. -/
def zoomInBaselevelsKeys (_z : Nat) : Bool := false

/-- Model of TileTask.__init__ (tasks.py lines 205-240): with skip the
configuration attributes stay unset; input bindings, process function
parameters and output params are only populated for a non-skip task whose
zoom is among the configured zoom levels (the baselevels dict-key test
never holds, see zoomInBaselevelsKeys); the output reader is only attached
when baselevels are configured and skip is false. -/
def mkTileTask (tile : TileAddr) (config : MapcheteConfigM) (skip : Bool) : TileTask :=
  { tile := tile
    id := default_tile_task_id tile
    skip := skip
    config_zoom_levels := if skip then none else some config.zoom_levels
    config_baselevels := if skip then none else config.baselevels
    process := if skip then none else some config.process
    mode := if skip then none else some config.mode
    input :=
      if skip || !(config.zoom_levels.any (fun z => decide (z = tile.zoom)))
          || zoomInBaselevelsKeys tile.zoom
      then [] else config.inputs_for_tile tile
    output_params :=
      if skip || !(config.zoom_levels.any (fun z => decide (z = tile.zoom)))
          || zoomInBaselevelsKeys tile.zoom
      then [] else config.output_params
    has_output_reader := !skip && config.baselevels.isSome
    output_nodata := config.output_nodata }

/-- Integer-coordinate bounds (left, bottom, right, top) in the process
coordinate reference system. -/
structure BoundsI where
  left : Int
  bottom : Int
  right : Int
  top : Int
deriving DecidableEq, Repr

/-- A geometry, represented by its bounding box (the geometry library is an
external collaborator; only non-empty geometries are represented, matching
the shapely truthiness test of Task.__init__). -/
structure GeomM where
  left : Int
  bottom : Int
  right : Int
  top : Int
deriving DecidableEq, Repr

/-- The bounds of a geometry. -/
def GeomM.boundsOf (g : GeomM) : BoundsI :=
  { left := g.left, bottom := g.bottom, right := g.right, top := g.top }

/-- shapely box(*bounds): the rectangle geometry of the given bounds. -/
def boxFromBounds (b : BoundsI) : GeomM :=
  { left := b.left, bottom := b.bottom, right := b.right, top := b.top }

/-- The spatial attributes a generic Task ends up with. -/
structure TaskSpatial where
  geometry : Option GeomM
  bounds : Option BoundsI
deriving DecidableEq, Repr

/-- Model of the geometry and bounds handling of Task.__init__ (tasks.py
lines 67-76): both arguments raise ValueError, a geometry alone derives
the bounds from the geometry, bounds alone derive the geometry as the box
of the bounds, neither leaves both unset. validate_bounds (external
module) is modelled from the spec as the identity on structured bounds. -/
def task_init_spatial (geometry : Option GeomM) (bounds : Option BoundsI) :
    Except PyExc TaskSpatial :=
  match geometry, bounds with
  | some _, some _ => Except.error PyExc.valueError
  | some g, none => Except.ok { geometry := some g, bounds := some g.boundsOf }
  | none, some b => Except.ok { geometry := some (boxFromBounds b), bounds := some b }
  | none, none => Except.ok { geometry := none, bounds := none }

/-- Concrete task below the baselevels: zoom levels 4 and 5 with the
single baselevel zoom 5, bilinear lower resampling, nearest higher
resampling, continue mode and nodata zero, at tile (4, 0, 0). -/
def belowBaselevelsTask : TileTask :=
  { tile := { zoom := 4, row := 0, col := 0 }
    id := "tile_task_z4-0-0"
    skip := false
    config_zoom_levels := some [4, 5]
    config_baselevels := some
      { zooms := [5], lower := Resampling.bilinear, higher := Resampling.nearest }
    process := some (fun _ => UserOutcome.returns (ProcessData.userValue 7))
    mode := some ProcessingMode.CONTINUE
    input := []
    output_params := []
    has_output_reader := true
    output_nodata := 0 }

/-- Concrete tile task whose user process returns the distinguished empty
output: zoom levels contain only 3, no baselevels, continue mode. -/
def emptyOutputTask : TileTask :=
  { tile := { zoom := 3, row := 0, col := 0 }
    id := "tile_task_z3-0-0"
    skip := false
    config_zoom_levels := some [3]
    config_baselevels := none
    process := some (fun _ => UserOutcome.returns ProcessData.emptyString)
    mode := some ProcessingMode.CONTINUE
    input := []
    output_params := []
    has_output_reader := false
    output_nodata := 0 }

/-- Concrete configuration used for the skip counterexample. -/
def skipConfig : MapcheteConfigM :=
  { zoom_levels := [5]
    baselevels := none
    process := fun _ => UserOutcome.returns (ProcessData.userValue 1)
    mode := ProcessingMode.CONTINUE
    inputs_for_tile := fun _ => []
    output_params := []
    output_nodata := 0 }

/-- Concrete readonly task: continue-style configuration but readonly
mode, zoom levels containing the tile zoom. -/
def readonlyTask : TileTask :=
  { tile := { zoom := 3, row := 1, col := 1 }
    id := "tile_task_z3-1-1"
    skip := false
    config_zoom_levels := some [3]
    config_baselevels := none
    process := some (fun _ => UserOutcome.returns (ProcessData.userValue 2))
    mode := some ProcessingMode.READONLY
    input := []
    output_params := []
    has_output_reader := false
    output_nodata := 0 }

/-- Whether two bounds rectangles intersect. -/
def boundsIntersect (a b : BoundsI) : Bool :=
  decide (a.left ≤ b.right) && decide (b.left ≤ a.right) &&
    decide (a.bottom ≤ b.top) && decide (b.bottom ≤ a.top)

/-- A task as seen by the batch and graph machinery: either a TileTask
(carrying its tile address and bbox bounds) or a plain Task with optional
bounds; the id and the result_key_name are the attributes the dependency
wiring uses. -/
inductive MTask
  | tileTask (id result_key : String) (tile : TileAddr) (bounds : BoundsI)
  | plainTask (id result_key : String) (bounds : Option BoundsI)
deriving DecidableEq, Repr

/-- The task id. -/
def MTask.id : MTask → String
  | MTask.tileTask i _ _ _ => i
  | MTask.plainTask i _ _ => i

/-- The stable result key name under which downstream tasks address the
output of this task. -/
def MTask.result_key_name : MTask → String
  | MTask.tileTask _ k _ _ => k
  | MTask.plainTask _ k _ => k

/-- The spatial bounds of the task, when it has any. -/
def MTask.bounds : MTask → Option BoundsI
  | MTask.tileTask _ _ _ b => some b
  | MTask.plainTask _ _ b => b

/-- Modelled from the spec section 4.2: the filter of the spatial index
IndexedFeatures (an external collaborator) returns the tasks whose bounds
intersect the given bounds; a filter without bounds returns every task. -/
def filterByBounds (tasks : List MTask) (b : Option BoundsI) : List MTask :=
  match b with
  | none => tasks
  | some bb =>
      tasks.filter (fun t =>
        match MTask.bounds t with
        | some tb => boundsIntersect tb bb
        | none => false)

/-- Python dict lookup in the tile-to-task mapping of a TileTaskBatch. -/
def lookupTile (entries : List (TileAddr × MTask)) (t : TileAddr) : Option MTask :=
  (entries.find? (fun p => decide (p.1 = t))).map Prod.snd

/-- A TileTaskBatch: the zoom stored by _validate, the tile-keyed task
dict, and the tiles_from_bounds operation of the external tile pyramid
(field _tp), kept abstract as a function. -/
structure TileTaskBatchM where
  zoom : Nat
  entries : List (TileAddr × MTask)
  tilesFromBounds : BoundsI → Nat → List TileAddr

/-- The possible python arguments of the intersection methods: a Task
instance, a bounds tuple or list, or any other object. -/
inductive IntersectArg
  | taskArg (t : MTask)
  | boundsArg (b : BoundsI)
  | otherArg

/-- Model of TileTaskBatch.intersection (tasks.py lines 446-469): a
TileTask argument must lie exactly one zoom level below the batch
(otherwise ValueError) and selects the children of its tile that are
present in the batch, in child order; any other Task recurses on its
bounds (a Task without bounds falls through to the TypeError); a bounds
tuple selects the batch members among tiles_from_bounds of the pyramid;
anything else raises TypeError. -/
def tileBatchIntersection (b : TileTaskBatchM) : IntersectArg → Except PyExc (List MTask)
  | IntersectArg.taskArg (MTask.tileTask _ _ tile _) =>
      if tile.zoom + 1 ≠ b.zoom then Except.error PyExc.valueError
      else Except.ok (tile.getChildren.filterMap (lookupTile b.entries))
  | IntersectArg.taskArg (MTask.plainTask _ _ obounds) =>
      match obounds with
      | some bb => Except.ok ((b.tilesFromBounds bb b.zoom).filterMap (lookupTile b.entries))
      | none => Except.error PyExc.typeError
  | IntersectArg.boundsArg bb =>
      Except.ok ((b.tilesFromBounds bb b.zoom).filterMap (lookupTile b.entries))
  | IntersectArg.otherArg => Except.error PyExc.typeError

/-- Model of TaskBatch.intersection (tasks.py lines 163-171): a Task
argument filters the spatial index with its bounds, a bounds tuple filters
directly, anything else raises TypeError. -/
def taskBatchIntersection (tasks : List MTask) : IntersectArg → Except PyExc (List MTask)
  | IntersectArg.taskArg t => Except.ok (filterByBounds tasks t.bounds)
  | IntersectArg.boundsArg bb => Except.ok (filterByBounds tasks (some bb))
  | IntersectArg.otherArg => Except.error PyExc.typeError

/-- A batch in the graph: a generic TaskBatch (preprocessing) or a
TileTaskBatch. -/
inductive BatchM
  | generic (id : String) (tasks : List MTask)
  | tile (b : TileTaskBatchM)

/-- The values() view of the batch, in insertion order. -/
def BatchM.values : BatchM → List MTask
  | BatchM.generic _ ts => ts
  | BatchM.tile b => b.entries.map Prod.snd

/-- Batch intersection with a Task argument, dispatching on the runtime
batch type as to_dask_collection does. -/
def BatchM.intersection : BatchM → MTask → Except PyExc (List MTask)
  | BatchM.generic _ ts, t => taskBatchIntersection ts (IntersectArg.taskArg t)
  | BatchM.tile b, t => tileBatchIntersection b (IntersectArg.taskArg t)

/-- A node of the dask collection: the task id, the dask key name of the
node, and the dependency mapping from upstream task id to the upstream
node (represented by its dask key name). -/
structure DNode where
  taskId : String
  keyName : String
  dependencies : List (String × String)
deriving DecidableEq, Repr

/-- Python dict insertion: an existing key keeps its position and takes
the new value, a new key is appended. -/
def pyDictInsert (d : List (String × String)) (k v : String) : List (String × String) :=
  if d.any (fun p => decide (p.1 = k)) then
    d.map (fun p => if p.1 = k then (k, v) else p)
  else d ++ [(k, v)]

/-- A python dict built from a list of key-value pairs in order. -/
def pyDict (l : List (String × String)) : List (String × String) :=
  l.foldl (fun d p => pyDictInsert d p.1 p.2) []

/-- Conversion of one task in to_dask_collection (tasks.py lines 581-604):
with a previous batch the dependencies dict maps each intersecting
upstream task id to the upstream node; without one the dict is empty. -/
def convTask (previous : Option BatchM) (t : MTask) : Except PyExc DNode :=
  match previous with
  | none =>
      Except.ok { taskId := t.id, keyName := t.result_key_name, dependencies := [] }
  | some p =>
      match BatchM.intersection p t with
      | Except.error e => Except.error e
      | Except.ok cs =>
          Except.ok
            { taskId := t.id
              keyName := t.result_key_name
              dependencies := pyDict (cs.map (fun c => (c.id, c.result_key_name))) }

/-- Left-to-right conversion of a task list. -/
def convTasks (previous : Option BatchM) : List MTask → Except PyExc (List DNode)
  | [] => Except.ok []
  | t :: rest =>
      match convTask previous t, convTasks previous rest with
      | Except.ok n, Except.ok ns => Except.ok (n :: ns)
      | Except.error e, _ => Except.error e
      | _, Except.error e => Except.error e

/-- Left-to-right conversion of the tasks of one batch, stopping at the
first raised exception like the python loop. -/
def convBatch (previous : Option BatchM) (b : BatchM) : Except PyExc (List DNode) :=
  convTasks previous (BatchM.values b)

/-- The batch loop of to_dask_collection (tasks.py lines 566-606): the
previous batch starts out absent and is updated to the batch just
converted. -/
def toDaskFrom (previous : Option BatchM) : List BatchM → Except PyExc (List DNode)
  | [] => Except.ok []
  | b :: rest =>
      match convBatch previous b, toDaskFrom (some b) rest with
      | Except.ok ns, Except.ok ms => Except.ok (ns ++ ms)
      | Except.error e, _ => Except.error e
      | _, Except.error e => Except.error e

/-- Model of to_dask_collection: convert all batches starting with no
previous batch. -/
def toDaskCollection (batches : List BatchM) : Except PyExc (List DNode) :=
  toDaskFrom none batches

/-- Specification-side pairing (spec section 4.3): each batch together
with its immediate predecessor, the first batch with none. -/
def prevPairs (batches : List BatchM) : List (Option BatchM × BatchM) :=
  (none :: batches.map some).zip batches

/-- Specification-side collection: the concatenation of the per-batch node
lists, each batch converted against its immediate predecessor. -/
def joinNodes : List (Option BatchM × BatchM) → Except PyExc (List DNode)
  | [] => Except.ok []
  | p :: rest =>
      match convBatch p.1 p.2, joinNodes rest with
      | Except.ok ns, Except.ok ms => Except.ok (ns ++ ms)
      | Except.error e, _ => Except.error e
      | _, Except.error e => Except.error e

/-- Specification-side description of the whole conversion. -/
def specCollection (batches : List BatchM) : Except PyExc (List DNode) :=
  joinNodes (prevPairs batches)

/-- Concrete preprocessing task for the wiring witness. -/
def wirePrepTask : MTask :=
  MTask.plainTask "src1:fetch" "src1:fetch_result"
    (some { left := 0, bottom := 0, right := 10, top := 10 })

/-- Concrete preprocessing batch for the wiring witness. -/
def wirePrevBatch : BatchM := BatchM.generic "preprocessing_tasks" [wirePrepTask]

/-- Concrete overlapping tile task for the wiring witness. -/
def wireTileTask : MTask :=
  MTask.tileTask "tile_task_z1-0-0" "tile_task_z1-0-0_result"
    { zoom := 1, row := 0, col := 0 } { left := 0, bottom := 0, right := 5, top := 5 }

/-- Task stored in the zoom 2 batch of the counterexample. -/
def cxBatchMember : MTask :=
  MTask.tileTask "tile_task_z2-0-0" "r1" { zoom := 2, row := 0, col := 0 }
    { left := 0, bottom := 0, right := 1, top := 1 }

/-- Concrete TileTaskBatch at zoom 2 for the counterexample. -/
def cxBatch : TileTaskBatchM :=
  { zoom := 2
    entries := [({ zoom := 2, row := 0, col := 0 }, cxBatchMember)]
    tilesFromBounds := fun _ _ => [] }

/-- First child task stored in the witness batch at zoom 3. -/
def wChildTask1 : MTask :=
  MTask.tileTask "tile_task_z3-0-0" "k1" { zoom := 3, row := 0, col := 0 }
    { left := 0, bottom := 0, right := 1, top := 1 }

/-- Second child task stored in the witness batch at zoom 3. -/
def wChildTask2 : MTask :=
  MTask.tileTask "tile_task_z3-1-1" "k2" { zoom := 3, row := 1, col := 1 }
    { left := 1, bottom := 1, right := 2, top := 2 }

/-- Concrete TileTaskBatch at zoom 3 holding two of the four children of
tile (2, 0, 0). -/
def wChildBatch : TileTaskBatchM :=
  { zoom := 3
    entries := [({ zoom := 3, row := 0, col := 0 }, wChildTask1),
                ({ zoom := 3, row := 1, col := 1 }, wChildTask2)]
    tilesFromBounds := fun _ _ => [] }

theorem statusCount_nil (s : Status) : statusCount s [] = 0 := rfl

theorem statusCount_append (s : Status) (l1 l2 : List Event) :
    statusCount s (l1 ++ l2) = statusCount s l1 + statusCount s l2 :=
  List.countP_append _ _ _

theorem statusCount_cons (s : Status) (e : Event) (l : List Event) :
    statusCount s (e :: l) = statusCount s l + (if e.status = some s then 1 else 0) := by
  simp [statusCount, List.countP_cons]

theorem statusCount_statusEvent (s s2 : Status) :
    statusCount s [statusEvent s2] = if s2 = s then 1 else 0 := by
  by_cases h : s2 = s
  · subst h; simp [statusCount, statusEvent, List.countP_cons]
  · simp [statusCount, statusEvent, List.countP_cons, h]

theorem statusCount_msgEvent (s : Status) : statusCount s [msgEvent] = 0 := by
  simp [statusCount, msgEvent, List.countP_cons]

theorem statusCount_resultEvents (s : Status) (total j : Nat) :
    statusCount s (resultEvents total j) = 0 := by
  induction j with
  | zero => rfl
  | succ j ih =>
      simp only [resultEvents, statusCount_append, ih]
      simp [statusCount, List.countP_cons, msgEvent]

theorem statusCount_attemptLead (s : Status) (a : Nat) :
    statusCount s (attemptLead a) = if Status.initializing = s then 1 else 0 := by
  unfold attemptLead
  by_cases h : 1 < a <;>
    simp only [h, if_true, if_false, statusCount_append] <;>
    by_cases hs : Status.initializing = s <;>
      simp [statusCount, statusEvent, msgEvent, List.countP_cons, hs]

theorem statusCount_runningHeader (s : Status) (total : Nat) :
    statusCount s (runningHeader total) = if Status.running = s then 1 else 0 := by
  by_cases hs : Status.running = s <;>
    simp [statusCount, runningHeader, msgEvent, List.countP_cons, hs]

theorem statusCount_attemptBody (s : Status) (total a j : Nat) :
    statusCount s (attemptBody total a j) =
      (if Status.initializing = s then 1 else 0) + (if Status.running = s then 1 else 0) := by
  simp [attemptBody, statusCount_append, statusCount_attemptLead, statusCount_runningHeader,
    statusCount_resultEvents]

theorem runFrom_total_zero (outcomes : Nat → AttemptOutcome) (r a : Nat) :
    runFrom 0 outcomes r a = (attemptLead a ++ [statusEvent Status.done], JobEnd.returned) := by
  unfold runFrom
  simp

theorem runFrom_success {total : Nat} {outcomes : Nat → AttemptOutcome} {a j : Nat} (r : Nat)
    (ht : total ≠ 0) (h : outcomes a = AttemptOutcome.success j) :
    runFrom total outcomes r a = (attemptBody total a j, JobEnd.returned) := by
  unfold runFrom
  rw [if_neg ht, h]

theorem runFrom_cancel {total : Nat} {outcomes : Nat → AttemptOutcome} {a j : Nat} (r : Nat)
    (ht : total ≠ 0) (h : outcomes a = AttemptOutcome.raises ExcKind.cancel j) :
    runFrom total outcomes r a =
      (attemptBody total a j ++ [statusEvent Status.cancelled], JobEnd.raised ExcKind.cancel) := by
  unfold runFrom
  rw [if_neg ht, h]

theorem runFrom_retry_zero {total : Nat} {outcomes : Nat → AttemptOutcome} {a j : Nat}
    (ht : total ≠ 0) (h : outcomes a = AttemptOutcome.raises ExcKind.retryable j) :
    runFrom total outcomes 0 a =
      (attemptBody total a j ++ [statusEvent Status.failed], JobEnd.raised ExcKind.retryable) := by
  unfold runFrom
  rw [if_neg ht, h]

theorem runFrom_retry_succ {total : Nat} {outcomes : Nat → AttemptOutcome} {a j : Nat} (rp : Nat)
    (ht : total ≠ 0) (h : outcomes a = AttemptOutcome.raises ExcKind.retryable j) :
    runFrom total outcomes (rp + 1) a =
      ((attemptBody total a j ++ [statusEvent Status.failed, statusEvent Status.retrying])
         ++ (runFrom total outcomes rp (a + 1)).1,
       (runFrom total outcomes rp (a + 1)).2) := by
  conv_lhs => unfold runFrom
  rw [if_neg ht, h]

theorem statusesOf_append (l1 l2 : List Event) :
    statusesOf (l1 ++ l2) = statusesOf l1 ++ statusesOf l2 :=
  List.filterMap_append _ _ _

theorem statusesOf_attemptLead (a : Nat) :
    statusesOf (attemptLead a) = [Status.initializing] := by
  unfold attemptLead statusesOf
  by_cases h : 1 < a <;> simp [h, statusEvent, msgEvent]

theorem runFrom_starts_with_lead (total : Nat) (outcomes : Nat → AttemptOutcome) (r a : Nat) :
    ∃ rest, (runFrom total outcomes r a).1 = attemptLead a ++ rest := by
  unfold runFrom
  by_cases ht : total = 0
  · exact ⟨[statusEvent Status.done], by simp [ht]⟩
  · cases houtc : outcomes a with
    | success j =>
        exact ⟨runningHeader total ++ resultEvents total j,
          by simp [ht, houtc, attemptBody, List.append_assoc]⟩
    | raises e jj =>
        cases e with
        | cancel =>
            exact ⟨runningHeader total ++ resultEvents total jj ++ [statusEvent Status.cancelled],
              by simp [ht, houtc, attemptBody, List.append_assoc]⟩
        | retryable =>
            cases r with
            | zero =>
                exact ⟨runningHeader total ++ resultEvents total jj ++ [statusEvent Status.failed],
                  by simp [ht, houtc, attemptBody, List.append_assoc]⟩
            | succ rp =>
                refine ⟨runningHeader total ++ resultEvents total jj
                  ++ [statusEvent Status.failed, statusEvent Status.retrying]
                  ++ (runFrom total outcomes rp (a + 1)).1, ?_⟩
                simp [ht, houtc, attemptBody, List.append_assoc]

theorem runFrom_first_status (total : Nat) (outcomes : Nat → AttemptOutcome) (r a : Nat) :
    (statusesOf (runFrom total outcomes r a).1).head? = some Status.initializing := by
  obtain ⟨rest, hrest⟩ := runFrom_starts_with_lead total outcomes r a
  rw [hrest, statusesOf_append, statusesOf_attemptLead]
  rfl

theorem runFrom_counts (total : Nat) (outcomes : Nat → AttemptOutcome) (ht : total ≠ 0) :
    ∀ (f : Nat), ∀ (r a m : Nat), f ≤ r →
      (∀ i, a ≤ i → i < a + f → ∃ j, outcomes i = AttemptOutcome.raises ExcKind.retryable j) →
      outcomes (a + f) = AttemptOutcome.success m →
      (runFrom total outcomes r a).2 = JobEnd.returned ∧
      statusCount Status.retrying (runFrom total outcomes r a).1 = f ∧
      statusCount Status.initializing (runFrom total outcomes r a).1 = f + 1 ∧
      statusCount Status.failed (runFrom total outcomes r a).1 = f ∧
      statusCount Status.done (runFrom total outcomes r a).1 = 0 := by
  intro f
  induction f with
  | zero =>
      intro r a m _ _ hsucc
      rw [Nat.add_zero] at hsucc
      rw [runFrom_success r ht hsucc]
      refine ⟨rfl, ?_, ?_, ?_, ?_⟩ <;> simp [statusCount_attemptBody]
  | succ f ih =>
      intro r a m hle hall hsucc
      cases r with
      | zero => omega
      | succ rp =>
          obtain ⟨j, houtc⟩ := hall a (Nat.le_refl a) (by omega)
          have hall2 : ∀ i, a + 1 ≤ i → i < a + 1 + f →
              ∃ j2, outcomes i = AttemptOutcome.raises ExcKind.retryable j2 := by
            intro i h1 h2
            exact hall i (by omega) (by omega)
          have hsucc2 : outcomes (a + 1 + f) = AttemptOutcome.success m := by
            have : a + 1 + f = a + (f + 1) := by omega
            rw [this]
            exact hsucc
          obtain ⟨ihEnd, ihRetry, ihInit, ihFail, ihDone⟩ :=
            ih rp (a + 1) m (by omega) hall2 hsucc2
          rw [runFrom_retry_succ rp ht houtc]
          have hpair : ∀ s, statusCount s [statusEvent Status.failed, statusEvent Status.retrying] =
              (if Status.failed = s then 1 else 0) + (if Status.retrying = s then 1 else 0) := by
            intro s
            rw [show [statusEvent Status.failed, statusEvent Status.retrying] =
                  [statusEvent Status.failed] ++ [statusEvent Status.retrying] from rfl,
              statusCount_append, statusCount_statusEvent, statusCount_statusEvent]
          refine ⟨ihEnd, ?_, ?_, ?_, ?_⟩ <;>
            simp only [statusCount_append, statusCount_attemptBody, hpair,
              ihRetry, ihInit, ihFail, ihDone] <;>
            simp <;> omega

theorem runFrom_cancelled_count (total : Nat) (outcomes : Nat → AttemptOutcome) :
    ∀ r a, statusCount Status.cancelled (runFrom total outcomes r a).1 =
      (if (runFrom total outcomes r a).2 = JobEnd.raised ExcKind.cancel then 1 else 0) := by
  intro r
  induction r with
  | zero =>
      intro a
      by_cases ht : total = 0
      · subst ht
        rw [runFrom_total_zero]
        simp [statusCount_append, statusCount_attemptLead, statusCount_statusEvent]
      · cases houtc : outcomes a with
        | success j =>
            rw [runFrom_success 0 ht houtc]
            simp [statusCount_attemptBody]
        | raises e jj =>
            cases e with
            | cancel =>
                rw [runFrom_cancel 0 ht houtc]
                simp [statusCount_append, statusCount_attemptBody, statusCount_statusEvent]
            | retryable =>
                rw [runFrom_retry_zero ht houtc]
                simp [statusCount_append, statusCount_attemptBody, statusCount_statusEvent]
  | succ rp ih =>
      intro a
      by_cases ht : total = 0
      · subst ht
        rw [runFrom_total_zero]
        simp [statusCount_append, statusCount_attemptLead, statusCount_statusEvent]
      · cases houtc : outcomes a with
        | success j =>
            rw [runFrom_success (rp + 1) ht houtc]
            simp [statusCount_attemptBody]
        | raises e jj =>
            cases e with
            | cancel =>
                rw [runFrom_cancel (rp + 1) ht houtc]
                simp [statusCount_append, statusCount_attemptBody, statusCount_statusEvent]
            | retryable =>
                rw [runFrom_retry_succ rp ht houtc]
                have hpair : statusCount Status.cancelled
                    [statusEvent Status.failed, statusEvent Status.retrying] = 0 := by
                  simp [statusCount, statusEvent, List.countP_cons]
                simp only [statusCount_append, statusCount_attemptBody, hpair, ih (a + 1)]
                simp

/-- C6: whenever task processing raises the cancel-eligible exception, the
attempt immediately notifies the cancelled status once and re-raises the
cancel exception at the job boundary, regardless of the remaining retry
budget (so cancellation is never retried); moreover, over a whole job run
the cancelled status is emitted exactly once when the job ends with the
cancel exception and never otherwise. -/
theorem execute_cancel_is_terminal :
    (∀ (total : Nat) (outcomes : Nat → AttemptOutcome) (r a j : Nat), total ≠ 0 →
        outcomes a = AttemptOutcome.raises ExcKind.cancel j →
        runFrom total outcomes r a =
          (attemptBody total a j ++ [statusEvent Status.cancelled], JobEnd.raised ExcKind.cancel) ∧
        statusCount Status.cancelled (runFrom total outcomes r a).1 = 1 ∧
        statusCount Status.retrying (runFrom total outcomes r a).1 = 0) ∧
    (∀ (total r : Nat) (outcomes : Nat → AttemptOutcome),
        statusCount Status.cancelled (runJob total r outcomes).1 =
          (if (runJob total r outcomes).2 = JobEnd.raised ExcKind.cancel then 1 else 0)) := by
  constructor
  · intro total outcomes r a j ht houtc
    have hrw := runFrom_cancel r ht houtc
    refine ⟨hrw, ?_, ?_⟩ <;>
      rw [hrw] <;>
      simp [statusCount_append, statusCount_attemptBody, statusCount_statusEvent]
  · intro total r outcomes
    unfold runJob
    rw [statusCount_cons]
    simp only [statusEvent]
    rw [runFrom_cancelled_count total outcomes r 1]
    simp

/-- C5 (amended): a retry-eligible exception notifies failed; with a nonzero
retry budget it then notifies retrying, decrements the budget and starts a
new attempt whose first status is initializing, and with an exhausted
budget it re-raises; consequently, with retry budget k and attempts that
fail f times (f at most k) before succeeding, the job returns normally
after f plus one attempts, emitting retrying exactly f times, failed
exactly f times, initializing f plus one times, and no done status (the
code returns without notifying done). -/
theorem execute_retry_semantics :
    (∀ (total : Nat) (outcomes : Nat → AttemptOutcome) (rp a j : Nat), total ≠ 0 →
        outcomes a = AttemptOutcome.raises ExcKind.retryable j →
        runFrom total outcomes (rp + 1) a =
          ((attemptBody total a j ++ [statusEvent Status.failed, statusEvent Status.retrying])
             ++ (runFrom total outcomes rp (a + 1)).1,
           (runFrom total outcomes rp (a + 1)).2) ∧
        (statusesOf (runFrom total outcomes rp (a + 1)).1).head? = some Status.initializing) ∧
    (∀ (total : Nat) (outcomes : Nat → AttemptOutcome) (a j : Nat), total ≠ 0 →
        outcomes a = AttemptOutcome.raises ExcKind.retryable j →
        runFrom total outcomes 0 a =
          (attemptBody total a j ++ [statusEvent Status.failed], JobEnd.raised ExcKind.retryable)) ∧
    (∀ (total : Nat) (outcomes : Nat → AttemptOutcome) (k f m : Nat), total ≠ 0 → f ≤ k →
        (∀ i, 1 ≤ i → i ≤ f → ∃ j, outcomes i = AttemptOutcome.raises ExcKind.retryable j) →
        outcomes (f + 1) = AttemptOutcome.success m →
        (runJob total k outcomes).2 = JobEnd.returned ∧
        statusCount Status.retrying (runJob total k outcomes).1 = f ∧
        statusCount Status.initializing (runJob total k outcomes).1 = f + 1 ∧
        statusCount Status.failed (runJob total k outcomes).1 = f ∧
        statusCount Status.done (runJob total k outcomes).1 = 0) := by
  refine ⟨?_, ?_, ?_⟩
  · intro total outcomes rp a j ht houtc
    exact ⟨runFrom_retry_succ rp ht houtc, runFrom_first_status total outcomes rp (a + 1)⟩
  · intro total outcomes a j ht houtc
    exact runFrom_retry_zero ht houtc
  · intro total outcomes k f m ht hle hall hsucc
    have hall2 : ∀ i, 1 ≤ i → i < 1 + f →
        ∃ j, outcomes i = AttemptOutcome.raises ExcKind.retryable j := by
      intro i h1 h2
      exact hall i h1 (by omega)
    have hsucc2 : outcomes (1 + f) = AttemptOutcome.success m := by
      have : 1 + f = f + 1 := by omega
      rw [this]
      exact hsucc
    obtain ⟨hEnd, hRetry, hInit, hFail, hDone⟩ :=
      runFrom_counts total outcomes ht f k 1 m hle hall2 hsucc2
    unfold runJob
    refine ⟨hEnd, ?_, ?_, ?_, ?_⟩ <;>
      rw [statusCount_cons] <;>
      simp [statusEvent, hRetry, hInit, hFail, hDone]

/-- C5 (counterexample): a one-task job with retries equal to one whose
first attempt fails and whose second attempt succeeds returns normally
after two attempts with one retrying status, yet emits no done status at
all, so the job does not complete in done as claimed. -/
theorem retry_then_success_emits_no_done :
    (runJob 1 1 retryThenSucceed).2 = JobEnd.returned ∧
    statusCount Status.retrying (runJob 1 1 retryThenSucceed).1 = 1 ∧
    statusCount Status.initializing (runJob 1 1 retryThenSucceed).1 = 2 ∧
    statusCount Status.done (runJob 1 1 retryThenSucceed).1 = 0 := by
  decide

/-- C5 (witness): the amended retry arithmetic instantiated at a one-task
job with retry budget two that fails once and then succeeds. -/
theorem execute_retry_semantics_witness :
    (runJob 1 2 retryWitnessOutcomes).2 = JobEnd.returned ∧
    statusCount Status.retrying (runJob 1 2 retryWitnessOutcomes).1 = 1 ∧
    statusCount Status.initializing (runJob 1 2 retryWitnessOutcomes).1 = 2 ∧
    statusCount Status.failed (runJob 1 2 retryWitnessOutcomes).1 = 1 ∧
    statusCount Status.done (runJob 1 2 retryWitnessOutcomes).1 = 0 :=
  execute_retry_semantics.2.2 1 retryWitnessOutcomes 2 1 1 (by decide) (by decide)
    (fun i h1 h2 => ⟨0, by
      have hi : i = 1 := Nat.le_antisymm h2 h1
      rw [hi]
      rfl⟩)
    (by decide)

/-- C6 (witness): cancellation at the first attempt of a one-task job with
five retries remaining terminates immediately with one cancelled status. -/
theorem execute_cancel_is_terminal_witness :
    runFrom 1 cancelWitnessOutcomes 5 1 =
      (attemptBody 1 1 0 ++ [statusEvent Status.cancelled], JobEnd.raised ExcKind.cancel) ∧
    statusCount Status.cancelled (runFrom 1 cancelWitnessOutcomes 5 1).1 = 1 ∧
    statusCount Status.retrying (runFrom 1 cancelWitnessOutcomes 5 1).1 = 0 :=
  execute_cancel_is_terminal.1 1 cancelWitnessOutcomes 5 1 0 (by decide) rfl

/-- C7: evaluating the job runner at a one-task job whose single attempt
succeeds: the emitted status sequence is parsing, initializing, running
with neither a post_processing nor a done status, while the final progress
notification reaches current equal to total and the job returns normally.
This contradicts the claimed terminal statuses, which the Status enum of
mapchete/enums.py itself documents as post_processing followed by done. -/
theorem normal_completion_emits_no_done :
    statusesOf (runJob 1 0 (fun _ => AttemptOutcome.success 1)).1 =
      [Status.parsing, Status.initializing, Status.running] ∧
    ((runJob 1 0 (fun _ => AttemptOutcome.success 1)).1.filterMap Event.progress).getLast? =
      some { current := 1, total := 1 } ∧
    (runJob 1 0 (fun _ => AttemptOutcome.success 1)).2 = JobEnd.returned := by
  decide

theorem collectDepTilesGo_ok (deps : List TaskInfo) :
    ∀ acc, (∀ ti ∈ deps, ti.tile.isSome) →
      ∃ l, collectDepTilesGo acc deps = Except.ok l := by
  induction deps with
  | nil => exact fun acc _ => ⟨acc, rfl⟩
  | cons ti rest ih =>
      intro acc hall
      have hti : ti.tile.isSome := hall ti (List.mem_cons_self ti rest)
      cases hsome : ti.tile with
      | none => rw [hsome] at hti; cases hti
      | some t =>
          have hrest : ∀ x ∈ rest, x.tile.isSome := fun x hx =>
            hall x (List.mem_cons_of_mem ti hx)
          obtain ⟨l, hl⟩ := ih
            (if ti.output = ProcessData.pyNone then acc
             else if acc.any (fun x => decide (x = t)) then acc else acc ++ [t]) hrest
          refine ⟨l, ?_⟩
          unfold collectDepTilesGo
          rw [hsome]
          exact hl

/-- C1 (amended): with baselevels configured, an allowed mode, the tile
zoom among the configured zoom levels and strictly below the minimum
baselevel zoom, execution takes the interpolate-from-LOWER path: the task
result is the child mosaic (dependency tiles first, the remaining child
tiles read through the output reader) resampled with the baselevels lower
resampling method and the output nodata value, marked processed with the
task tile attached, and the user process is not invoked. -/
theorem execute_below_baselevels_uses_lower_path
    (t : TileTask) (deps : List (String × TaskInfo)) (bl : Baselevels) (zs : List Nat)
    (mn : Nat) (dts : List TileAddr)
    (hbl : t.config_baselevels = some bl)
    (hmode : modeAllowed t.mode = true)
    (hzs : t.config_zoom_levels = some zs)
    (hz : zs.any (fun z => decide (z = t.tile.zoom)) = true)
    (hmn : pyMin bl.zooms = Except.ok mn)
    (hlt : t.tile.zoom < mn)
    (hct : collectDepTiles (deps.map Prod.snd) = Except.ok dts) :
    tileTaskExecute t deps =
      { outcome := Except.ok
          { output := ProcessData.fromChildren (childSources t.tile dts)
              bl.lower t.output_nodata,
            processed := true, tile := some t.tile },
        processCalled := false } := by
  simp [tileTaskExecute, tileTaskExecInner, interpolate_from_baselevel,
    hbl, hmode, hzs, hz, hmn, hlt, hct]

/-- C1 (counterexample): executing the concrete task at zoom 4 with the
single baselevel zoom 5 and no dependencies produces the mosaic of its
four child tiles read through the output reader, resampled with the LOWER
resampling method (bilinear), which is not the parent-tile resample with
the higher method (nearest) that the claim requires. -/
theorem interpolate_below_baselevels_counterexample :
    tileTaskExecute belowBaselevelsTask [] =
      { outcome := Except.ok
          { output := ProcessData.fromChildren
              [ChildSource.fromReader { zoom := 5, row := 0, col := 0 },
               ChildSource.fromReader { zoom := 5, row := 0, col := 1 },
               ChildSource.fromReader { zoom := 5, row := 1, col := 0 },
               ChildSource.fromReader { zoom := 5, row := 1, col := 1 }]
              Resampling.bilinear 0,
            processed := true, tile := some { zoom := 4, row := 0, col := 0 } },
        processCalled := false } ∧
    ProcessData.fromChildren
        [ChildSource.fromReader { zoom := 5, row := 0, col := 0 },
         ChildSource.fromReader { zoom := 5, row := 0, col := 1 },
         ChildSource.fromReader { zoom := 5, row := 1, col := 0 },
         ChildSource.fromReader { zoom := 5, row := 1, col := 1 }]
        Resampling.bilinear 0 ≠
      ProcessData.fromParent (TileAddr.getParent { zoom := 4, row := 0, col := 0 })
        Resampling.nearest 0 :=
  ⟨rfl, by decide⟩

/-- C1 (witness): the amended lower-path theorem instantiated at the
concrete task below the baselevels with no dependencies. -/
theorem execute_below_baselevels_uses_lower_path_witness :
    tileTaskExecute belowBaselevelsTask [] =
      { outcome := Except.ok
          { output := ProcessData.fromChildren
              (childSources { zoom := 4, row := 0, col := 0 } [])
              Resampling.bilinear 0,
            processed := true, tile := some { zoom := 4, row := 0, col := 0 } },
        processCalled := false } :=
  execute_below_baselevels_uses_lower_path belowBaselevelsTask []
    { zooms := [5], lower := Resampling.bilinear, higher := Resampling.nearest }
    [4, 5] 5 [] rfl rfl rfl (by decide) rfl (by decide) rfl

theorem tileTaskExecute_ok_shape (t : TileTask) (deps : List (String × TaskInfo))
    (ti : TaskInfo) (h : (tileTaskExecute t deps).outcome = Except.ok ti) :
    ti.processed = true ∧ ti.tile = some t.tile := by
  unfold tileTaskExecute at h
  split at h
  · simp at h
  · split at h
    · simp at h
    · split at h
      · simp at h
      · dsimp only at h
        split at h
        · simp at h
        · split at h
          · simp at h
          · split at h
            · simp at h
            · simp only [Except.ok.injEq] at h
              rw [← h]
              exact ⟨rfl, rfl⟩

/-- C4: a no-data outcome is not an error: when executing the tile task
raises the no-data sentinel (whether the user process raised it or the
process returned the distinguished empty output), the batch wrapper
returns the value "empty" instead of propagating a failure; a successful
execution yields a result carrying the process output with processed true
and the task tile; every other exception propagates unchanged. -/
theorem nodata_outcome_is_not_an_error :
    (∀ (t : TileTask) (deps : List (String × TaskInfo)),
        (tileTaskExecute t deps).outcome = Except.error PyExc.nodataTile →
        executeTileTaskWrapper t deps =
          (Except.ok WrapperOutput.emptyMarker, (tileTaskExecute t deps).processCalled)) ∧
    (∀ (t : TileTask) (deps : List (String × TaskInfo)) (ti : TaskInfo),
        (tileTaskExecute t deps).outcome = Except.ok ti →
        executeTileTaskWrapper t deps =
          (Except.ok (WrapperOutput.taskInfo ti), (tileTaskExecute t deps).processCalled) ∧
        ti.processed = true ∧ ti.tile = some t.tile) ∧
    (∀ (t : TileTask) (deps : List (String × TaskInfo)) (e : PyExc),
        e ≠ PyExc.nodataTile →
        (tileTaskExecute t deps).outcome = Except.error e →
        executeTileTaskWrapper t deps =
          (Except.error e, (tileTaskExecute t deps).processCalled)) := by
  refine ⟨?_, ?_, ?_⟩
  · intro t deps h
    unfold executeTileTaskWrapper
    dsimp only
    rw [h]
  · intro t deps ti h
    obtain ⟨hp, htile⟩ := tileTaskExecute_ok_shape t deps ti h
    refine ⟨?_, hp, htile⟩
    unfold executeTileTaskWrapper
    dsimp only
    rw [h]
  · intro t deps e he h
    unfold executeTileTaskWrapper
    dsimp only
    rw [h]
    cases e with
    | valueError => rfl
    | typeError => rfl
    | keyError => rfl
    | nodataTile => exact absurd rfl he
    | processOutputError => rfl
    | userException => rfl

/-- C4 (witness): the wrapper applied to the concrete empty-output task
returns the value "empty" with the user process having run. -/
theorem nodata_outcome_is_not_an_error_witness :
    executeTileTaskWrapper emptyOutputTask [] = (Except.ok WrapperOutput.emptyMarker, true) :=
  nodata_outcome_is_not_an_error.1 emptyOutputTask [] rfl

/-- C8 (amended): a TileTask constructed with skip true carries no input
bindings, no output params and no output reader, and executing it never
invokes the user process; however, execution raises a ValueError from the
mode check (the mode attribute is unset), not the no-data sentinel. -/
theorem skip_tile_task_properties :
    ∀ (tile : TileAddr) (config : MapcheteConfigM) (deps : List (String × TaskInfo)),
      (mkTileTask tile config true).input = [] ∧
      (mkTileTask tile config true).output_params = [] ∧
      (mkTileTask tile config true).has_output_reader = false ∧
      (mkTileTask tile config true).process = none ∧
      tileTaskExecute (mkTileTask tile config true) deps =
        { outcome := Except.error PyExc.valueError, processCalled := false } :=
  fun _ _ _ => ⟨rfl, rfl, rfl, rfl, rfl⟩

/-- C8 (counterexample): executing the concrete skip task raises
ValueError (the unset mode fails the mode check), which is not the no-data
sentinel the claim requires. -/
theorem skip_task_execute_raises_value_error :
    tileTaskExecute (mkTileTask { zoom := 5, row := 1, col := 2 } skipConfig true) [] =
      { outcome := Except.error PyExc.valueError, processCalled := false } ∧
    PyExc.valueError ≠ PyExc.nodataTile :=
  ⟨rfl, by decide⟩

/-- C9: Task construction with both a geometry and bounds fails with
ValueError; a geometry alone derives the bounds of the geometry; bounds
alone derive the box geometry of those bounds (whose bounds are again the
given bounds); neither leaves both unset; and in every successful
construction the stored bounds equal the bounds of the stored geometry. -/
theorem task_init_spatial_consistency :
    (∀ (g : GeomM) (b : BoundsI),
        task_init_spatial (some g) (some b) = Except.error PyExc.valueError) ∧
    (∀ g : GeomM, task_init_spatial (some g) none =
        Except.ok { geometry := some g, bounds := some g.boundsOf }) ∧
    (∀ b : BoundsI, task_init_spatial none (some b) =
        Except.ok { geometry := some (boxFromBounds b), bounds := some b } ∧
        (boxFromBounds b).boundsOf = b) ∧
    (task_init_spatial none none =
        Except.ok { geometry := none, bounds := none }) ∧
    (∀ (g : Option GeomM) (b : Option BoundsI) (ts : TaskSpatial),
        task_init_spatial g b = Except.ok ts →
        ts.bounds = ts.geometry.map GeomM.boundsOf) := by
  refine ⟨fun g b => rfl, fun g => rfl, fun b => ⟨rfl, rfl⟩, rfl, ?_⟩
  intro g b ts h
  cases g with
  | some g =>
      cases b with
      | some b => cases h
      | none =>
          simp only [task_init_spatial, Except.ok.injEq] at h
          rw [← h]
          rfl
  | none =>
      cases b with
      | some b =>
          simp only [task_init_spatial, Except.ok.injEq] at h
          rw [← h]
          rfl
      | none =>
          simp only [task_init_spatial, Except.ok.injEq] at h
          rw [← h]
          rfl

/-- C9 (witness): the consistency conjunct instantiated at a bounds-only
construction with bounds (0, 0, 1, 1). -/
theorem task_init_spatial_consistency_witness :
    ({ geometry := some (boxFromBounds { left := 0, bottom := 0, right := 1, top := 1 }),
       bounds := some { left := 0, bottom := 0, right := 1, top := 1 } } :
        TaskSpatial).bounds =
      ({ geometry := some (boxFromBounds { left := 0, bottom := 0, right := 1, top := 1 }),
         bounds := some { left := 0, bottom := 0, right := 1, top := 1 } } :
          TaskSpatial).geometry.map GeomM.boundsOf :=
  task_init_spatial_consistency.2.2.2.2 none
    (some { left := 0, bottom := 0, right := 1, top := 1 }) _ rfl

/-- C10: executing a tile task requires one of the modes memory, continue
or overwrite: the readonly mode is rejected by the membership test, and
for every task whose mode fails that test execute raises ValueError with
the user process never invoked, regardless of the zoom configuration or
dependencies (the ValueError fires before the zoom check, the dependency
attachment and any processing). -/
theorem execute_requires_processing_mode :
    modeAllowed (some ProcessingMode.READONLY) = false ∧
    (∀ (t : TileTask) (deps : List (String × TaskInfo)),
        modeAllowed t.mode = false →
        tileTaskExecute t deps =
          { outcome := Except.error PyExc.valueError, processCalled := false }) := by
  refine ⟨rfl, ?_⟩
  intro t deps h
  unfold tileTaskExecute
  rw [h]
  rfl

/-- C10 (witness): executing the concrete readonly task raises ValueError
without invoking the user process. -/
theorem execute_requires_processing_mode_witness :
    tileTaskExecute readonlyTask [] =
      { outcome := Except.error PyExc.valueError, processCalled := false } :=
  execute_requires_processing_mode.2 readonlyTask [] rfl

theorem pyDictInsert_new (d : List (String × String)) (k v : String)
    (h : ∀ p ∈ d, p.1 ≠ k) : pyDictInsert d k v = d ++ [(k, v)] := by
  unfold pyDictInsert
  have hfalse : d.any (fun p => decide (p.1 = k)) = false := by
    rw [List.any_eq_false]
    intro p hp
    simp only [decide_eq_true_eq]
    exact h p hp
  rw [hfalse]
  simp

theorem pyDict_go_nodup :
    ∀ (l acc : List (String × String)),
      (∀ p ∈ acc, ∀ q ∈ l, p.1 ≠ q.1) → (l.map Prod.fst).Nodup →
      l.foldl (fun d p => pyDictInsert d p.1 p.2) acc = acc ++ l := by
  intro l
  induction l with
  | nil => intro acc _ _; simp
  | cons q rest ih =>
      intro acc hdisj hnodup
      have hq : ∀ p ∈ acc, p.1 ≠ q.1 := fun p hp =>
        hdisj p hp q (List.mem_cons_self q rest)
      have hins : pyDictInsert acc q.1 q.2 = acc ++ [q] := pyDictInsert_new acc q.1 q.2 hq
      have hnodup2 : (rest.map Prod.fst).Nodup := by
        simp only [List.map_cons, List.nodup_cons] at hnodup
        exact hnodup.2
      have hqrest : ∀ r ∈ rest, q.1 ≠ r.1 := by
        intro r hr heq
        simp only [List.map_cons, List.nodup_cons] at hnodup
        exact hnodup.1 (heq ▸ List.mem_map_of_mem Prod.fst hr)
      have hdisj2 : ∀ p ∈ acc ++ [q], ∀ r ∈ rest, p.1 ≠ r.1 := by
        intro p hp r hr
        rcases List.mem_append.mp hp with hpa | hpq
        · exact hdisj p hpa r (List.mem_cons_of_mem q hr)
        · have : p = q := by simpa using hpq
          rw [this]
          exact hqrest r hr
      calc (q :: rest).foldl (fun d p => pyDictInsert d p.1 p.2) acc
      _ = rest.foldl (fun d p => pyDictInsert d p.1 p.2) (pyDictInsert acc q.1 q.2) := rfl
      _ = rest.foldl (fun d p => pyDictInsert d p.1 p.2) (acc ++ [q]) := by rw [hins]
      _ = (acc ++ [q]) ++ rest := ih (acc ++ [q]) hdisj2 hnodup2
      _ = acc ++ (q :: rest) := by simp

theorem pyDict_of_nodup (l : List (String × String)) (h : (l.map Prod.fst).Nodup) :
    pyDict l = l := by
  unfold pyDict
  rw [pyDict_go_nodup l [] (by intro p hp; cases hp) h]
  simp

theorem toDaskFrom_eq_joinNodes (batches : List BatchM) :
    ∀ previous, toDaskFrom previous batches =
      joinNodes ((previous :: batches.map some).zip batches) := by
  induction batches with
  | nil => intro previous; rfl
  | cons b rest ih =>
      intro previous
      show toDaskFrom previous (b :: rest) = _
      unfold toDaskFrom
      rw [ih (some b)]
      simp only [List.map_cons, List.zip_cons_cons]
      rfl

/-- C2: the dask collection wires dependencies exactly as specified: the
loop over batches equals the pairing of each batch with its immediate
predecessor (tasks of the first batch, the preprocessing tasks, receive no
dependencies), and for a task with a previous batch whose intersection
result carries pairwise distinct ids the dependency dict is exactly the
mapping from upstream id to upstream node over that intersection, with no
duplicates and no omissions. -/
theorem to_dask_collection_dependency_wiring :
    (∀ batches : List BatchM, toDaskCollection batches = specCollection batches) ∧
    (∀ t : MTask, convTask none t =
        Except.ok { taskId := t.id, keyName := t.result_key_name, dependencies := [] }) ∧
    (∀ (p : BatchM) (t : MTask) (cs : List MTask),
        BatchM.intersection p t = Except.ok cs →
        (cs.map MTask.id).Nodup →
        convTask (some p) t =
          Except.ok
            { taskId := t.id
              keyName := t.result_key_name
              dependencies := cs.map (fun c => (c.id, c.result_key_name)) }) := by
  refine ⟨?_, fun t => rfl, ?_⟩
  · intro batches
    exact toDaskFrom_eq_joinNodes batches none
  · intro p t cs hint hnodup
    have hred : convTask (some p) t =
        match BatchM.intersection p t with
        | Except.error e => Except.error e
        | Except.ok cs =>
            Except.ok
              { taskId := t.id
                keyName := t.result_key_name
                dependencies := pyDict (cs.map (fun c => (c.id, c.result_key_name))) } := rfl
    rw [hred, hint]
    have hkeys : ((cs.map (fun c => (c.id, c.result_key_name))).map Prod.fst).Nodup := by
      simp only [List.map_map]
      exact hnodup
    show (Except.ok
        ({ taskId := t.id
           keyName := t.result_key_name
           dependencies := pyDict (cs.map (fun c => (c.id, c.result_key_name))) } : DNode) :
          Except PyExc DNode) =
      Except.ok
        ({ taskId := t.id
           keyName := t.result_key_name
           dependencies := cs.map (fun c => (c.id, c.result_key_name)) } : DNode)
    rw [pyDict_of_nodup _ hkeys]

/-- C2 (witness): the exact-dependency conjunct instantiated at a
preprocessing batch with one overlapping task: the tile task receives
exactly that dependency. -/
theorem to_dask_collection_dependency_wiring_witness :
    convTask (some wirePrevBatch) wireTileTask =
      Except.ok
        { taskId := "tile_task_z1-0-0"
          keyName := "tile_task_z1-0-0_result"
          dependencies := [("src1:fetch", "src1:fetch_result")] } :=
  to_dask_collection_dependency_wiring.2.2 wirePrevBatch wireTileTask [wirePrepTask]
    rfl (by decide)

/-- C3 (amended): intersection of a TileTaskBatch at zoom z with a
TileTask argument one zoom level BELOW (argument zoom plus one equals the
batch zoom) returns the up-to-four batch members stored under the children
of the argument tile, in the deterministic child order top-left,
top-right, bottom-left, bottom-right; every returned task is stored under
a child of the argument tile; and an argument that is neither a Task nor a
bounds tuple or list raises TypeError. -/
theorem tile_batch_intersection_children (b : TileTaskBatchM) (i k : String)
    (ta : TileAddr) (bd : BoundsI) (hz : ta.zoom + 1 = b.zoom) :
    tileBatchIntersection b (IntersectArg.taskArg (MTask.tileTask i k ta bd)) =
      Except.ok (ta.getChildren.filterMap (lookupTile b.entries)) ∧
    (ta.getChildren.filterMap (lookupTile b.entries)).length ≤ 4 ∧
    (∀ m ∈ ta.getChildren.filterMap (lookupTile b.entries),
        ∃ c ∈ ta.getChildren, lookupTile b.entries c = some m) ∧
    tileBatchIntersection b IntersectArg.otherArg = Except.error PyExc.typeError := by
  refine ⟨?_, ?_, ?_, rfl⟩
  · have hred : tileBatchIntersection b (IntersectArg.taskArg (MTask.tileTask i k ta bd)) =
        if ta.zoom + 1 ≠ b.zoom then Except.error PyExc.valueError
        else Except.ok (ta.getChildren.filterMap (lookupTile b.entries)) := rfl
    rw [hred, if_neg (fun hne => hne hz)]
  · calc (ta.getChildren.filterMap (lookupTile b.entries)).length
    _ ≤ ta.getChildren.length := List.length_filterMap_le _ _
    _ = 4 := rfl
  · intro m hm
    obtain ⟨c, hc, hfc⟩ := List.mem_filterMap.mp hm
    exact ⟨c, hc, hfc⟩

/-- C3 (counterexample): intersecting the zoom 2 batch with a TileTask
argument at zoom 3 (one level ABOVE, as the claim reads it) raises
ValueError instead of returning child tasks: the code requires the
argument to be one zoom level below the batch. -/
theorem tile_batch_intersection_zoom_counterexample :
    tileBatchIntersection cxBatch
        (IntersectArg.taskArg (MTask.tileTask "tile_task_z3-0-0" "r2"
          { zoom := 3, row := 0, col := 0 }
          { left := 0, bottom := 0, right := 1, top := 1 })) =
      Except.error PyExc.valueError := rfl

/-- C3 (witness): the amended child-intersection theorem instantiated at
the zoom 3 batch and an argument tile at zoom 2: the two stored children
come back in child order. -/
theorem tile_batch_intersection_children_witness :
    tileBatchIntersection wChildBatch
        (IntersectArg.taskArg (MTask.tileTask "tile_task_z2-0-0" "k0"
          { zoom := 2, row := 0, col := 0 }
          { left := 0, bottom := 0, right := 2, top := 2 })) =
      Except.ok [wChildTask1, wChildTask2] :=
  (tile_batch_intersection_children wChildBatch "tile_task_z2-0-0" "k0"
    { zoom := 2, row := 0, col := 0 }
    { left := 0, bottom := 0, right := 2, top := 2 } rfl).1

end Mapchete
